import Mathlib

/-!
Verification of the `TokenManager` class in `src/drone/token_manager.py`.

The Python class holds five instance fields (`access_token`, `refresh_token`,
`expires_in`, `token_expiry`, `refresh_margin`) and exposes `__init__`,
`get_access_token`, `is_token_expired`, `ensure_valid_token`, `update_tokens`.

Modelling conventions:
* Timestamps and durations are integers counting seconds (`datetime.now()`
  becomes an explicit clock argument; `timedelta(seconds = e)` is just `e`).
* A Python dict payload with the three expected keys is `AuthData`, a record
  of `Option` fields; a missing key models a dict without that key, and
  subscripting a missing key raises `KeyError`, modelled as `PyErr.keyError`.
* `raise Exception(msg)` is modelled as `PyErr.exn msg`; `except Exception`
  together with `str(e)` is modelled via `PyErr.msg`.
* The awaited refresher call `refresh_token(session, self.refresh_token)` is
  an external collaborator; its outcome is passed in as a value of type
  `Except String AuthData` (exception message, or returned payload dict).
  `ensure_valid_token` records how many times it consulted that collaborator
  in the `refreshCalls` field of its result.
* Field assignments of the Python bodies are modelled statement by statement,
  in source order, so that an exception thrown part way through leaves exactly
  the partial mutations the Python interpreter would leave on `self`.
-/

/-- A Python dict carrying (possibly) the keys `access_token`, `refresh_token`
and `expires_in`; `none` models an absent key. -/
structure AuthData where
  access_token : Option String
  refresh_token : Option String
  expires_in : Option Int
  deriving DecidableEq, Repr

/-- Python exceptions as observed by this module: `KeyError(key)` raised by a
dict subscript, or a plain `Exception(msg)`. -/
inductive PyErr where
  | keyError (key : String)
  | exn (msg : String)
  deriving DecidableEq, Repr

/-- The ASCII apostrophe character, used by `str` on a `KeyError`. -/
def quoteChar : Char := '\x27'

/-- `str(KeyError(k))` in Python renders as the key wrapped in apostrophes. -/
def pyKeyErrorStr (k : String) : String :=
  String.mk (quoteChar :: (k.data ++ [quoteChar]))

/-- `str(e)` for a modelled Python exception. -/
def PyErr.msg : PyErr → String
  | .keyError k => pyKeyErrorStr k
  | .exn m => m

/-- The instance state of a `TokenManager` object (its five fields). -/
structure TokenManager where
  access_token : String
  refresh_token : String
  expires_in : Int
  token_expiry : Int
  refresh_margin : Int
  deriving DecidableEq, Repr

/-- `TokenManager.__init__`: reads the three keys in source order (the first
missing key raises `KeyError`), then sets
`token_expiry = now + expires_in` and `refresh_margin = 30`. -/
def TokenManager.init (auth_data : AuthData) (now : Int) :
    Except PyErr TokenManager :=
  match auth_data.access_token with
  | none => .error (.keyError "access_token")
  | some a =>
    match auth_data.refresh_token with
    | none => .error (.keyError "refresh_token")
    | some r =>
      match auth_data.expires_in with
      | none => .error (.keyError "expires_in")
      | some e =>
        .ok { access_token := a, refresh_token := r, expires_in := e,
              token_expiry := now + e, refresh_margin := 30 }

/-- `TokenManager.get_access_token`: returns the held access token verbatim. -/
def TokenManager.get_access_token (m : TokenManager) : String :=
  m.access_token

/-- `TokenManager.is_token_expired`:
`datetime.now() >= self.token_expiry - self.refresh_margin`. -/
def TokenManager.is_token_expired (m : TokenManager) (now : Int) : Bool :=
  decide (m.token_expiry - m.refresh_margin ≤ now)

/-- Whether `needle` occurs at the start of `haystack` (character lists). -/
def startsWithL : List Char → List Char → Bool
  | _, [] => true
  | [], _ :: _ => false
  | a :: as, b :: bs => a == b && startsWithL as bs

/-- Whether `needle` occurs anywhere inside `haystack` (character lists). -/
def containsSub : List Char → List Char → Bool
  | [], needle => needle.isEmpty
  | h :: t, needle => startsWithL (h :: t) needle || containsSub t needle

/-- Python's case-sensitive substring test `needle in haystack`. -/
def strContains (haystack needle : String) : Bool :=
  containsSub haystack.data needle.data

/-- The fixed list of terminal-session marker phrases from the source. -/
def terminalMarkers : List String :=
  ["Token is not active", "invalid_grant", "Refresh token expired"]

/-- `any(phrase in error_msg for phrase in [...])` from the source. -/
def hasTerminalMarker (error_msg : String) : Bool :=
  terminalMarkers.any (fun phrase => strContains error_msg phrase)

/-- The `except` clause of `ensure_valid_token`: classify a caught exception
message into `Exception('SESSION_EXPIRED')` or
`Exception('Failed to refresh token: ...')`. -/
def classify (error_msg : String) : PyErr :=
  if hasTerminalMarker error_msg then
    .exn "SESSION_EXPIRED"
  else
    .exn ("Failed to refresh token: " ++ error_msg)

deriving instance DecidableEq for Except

/-- Observable outcome of one `ensure_valid_token` call: the returned value or
raised exception, the final instance state, and how many times the external
refresher collaborator was invoked. -/
structure EnsureResult where
  result : Except PyErr String
  state : TokenManager
  refreshCalls : Nat
  deriving DecidableEq, Repr

/-- `TokenManager.ensure_valid_token`.  `t` is the clock value read by the
initial `is_token_expired` check; `u` is the clock value read on line 27 after
the refresher call completed; `refresher` is the outcome of
`await refresh_token(session, self.refresh_token)`.  The four assignments of
the `try` block run in source order, and any exception from the block (the
refresher failing, or a `KeyError` while subscripting its payload) is caught
and classified from its `str`. -/
def TokenManager.ensure_valid_token (m : TokenManager)
    (refresher : Except String AuthData) (t u : Int) : EnsureResult :=
  match m.is_token_expired t with
  | false => { result := .ok m.access_token, state := m, refreshCalls := 0 }
  | true =>
    match refresher with
    | .error emsg =>
      { result := .error (classify emsg), state := m, refreshCalls := 1 }
    | .ok payload =>
      match payload.access_token with
      | none =>
        { result := .error (classify (PyErr.keyError "access_token").msg),
          state := m, refreshCalls := 1 }
      | some a =>
        let m1 := { m with access_token := a }
        match payload.refresh_token with
        | none =>
          { result := .error (classify (PyErr.keyError "refresh_token").msg),
            state := m1, refreshCalls := 1 }
        | some r =>
          let m2 := { m1 with refresh_token := r }
          match payload.expires_in with
          | none =>
            { result := .error (classify (PyErr.keyError "expires_in").msg),
              state := m2, refreshCalls := 1 }
          | some e =>
            let m3 := { m2 with expires_in := e, token_expiry := u + e }
            { result := .ok m3.access_token, state := m3, refreshCalls := 1 }

/-- `TokenManager.update_tokens`: the four assignments run in source order;
a missing key raises `KeyError` at its subscript, leaving the assignments
already performed in place.  Returns the call outcome and the final state. -/
def TokenManager.update_tokens (m : TokenManager) (auth_data : AuthData)
    (now : Int) : Except PyErr Unit × TokenManager :=
  match auth_data.access_token with
  | none => (.error (.keyError "access_token"), m)
  | some a =>
    let m1 := { m with access_token := a }
    match auth_data.refresh_token with
    | none => (.error (.keyError "refresh_token"), m1)
    | some r =>
      let m2 := { m1 with refresh_token := r }
      match auth_data.expires_in with
      | none => (.error (.keyError "expires_in"), m2)
      | some e =>
        (.ok (), { m2 with expires_in := e, token_expiry := now + e })

/-- Claim C2: when the token is due for refresh and the refresher succeeds
with a payload carrying `access_token`, `refresh_token` and `expires_in`,
`ensure_valid_token` replaces all four credential fields, sets the expiry to
the clock value observed after the refresh completed plus the new
`expires_in`, returns the new access token, and a subsequent
`get_access_token` also returns it. -/
theorem C2_refresh_success (m : TokenManager) (t u : Int) (a r : String)
    (e : Int) (h : m.is_token_expired t = true) :
    m.ensure_valid_token (.ok ⟨some a, some r, some e⟩) t u =
      { result := .ok a,
        state := { access_token := a, refresh_token := r, expires_in := e,
                   token_expiry := u + e,
                   refresh_margin := m.refresh_margin },
        refreshCalls := 1 } ∧
    (m.ensure_valid_token (.ok ⟨some a, some r, some e⟩) t u).state.get_access_token
      = a := by
  unfold TokenManager.ensure_valid_token
  rw [h]
  exact ⟨rfl, rfl⟩

/-- Witness for C2 at a concrete expired manager and payload. -/
theorem C2_witness :
    (⟨"A1", "R1", 3600, 100, 30⟩ : TokenManager).is_token_expired 100 = true ∧
    ((⟨"A1", "R1", 3600, 100, 30⟩ : TokenManager).ensure_valid_token
        (.ok ⟨some "A2", some "R2", some 3600⟩) 100 101 =
      { result := .ok "A2", state := ⟨"A2", "R2", 3600, 3701, 30⟩,
        refreshCalls := 1 } ∧
     ((⟨"A1", "R1", 3600, 100, 30⟩ : TokenManager).ensure_valid_token
        (.ok ⟨some "A2", some "R2", some 3600⟩) 100 101).state.get_access_token
       = "A2") :=
  ⟨by decide,
   C2_refresh_success ⟨"A1", "R1", 3600, 100, 30⟩ 100 101 "A2" "R2" 3600
     (by decide)⟩

/-- Claim C6: with the 30-second margin, a call whose clock value is strictly
below `token_expiry - 30` returns the held access token without consulting the
refresher, and a call whose clock value is at or past `token_expiry - 30`
consults the refresher exactly once. -/
theorem C6_refresh_gating (m : TokenManager)
    (refresher : Except String AuthData) (t u : Int)
    (hm : m.refresh_margin = 30) :
    (t < m.token_expiry - 30 →
      (m.ensure_valid_token refresher t u).result = .ok m.access_token ∧
      (m.ensure_valid_token refresher t u).refreshCalls = 0 ∧
      (m.ensure_valid_token refresher t u).state = m) ∧
    (m.token_expiry - 30 ≤ t →
      (m.ensure_valid_token refresher t u).refreshCalls = 1) := by
  constructor
  · intro hlt
    have hfalse : m.is_token_expired t = false := by
      simp only [TokenManager.is_token_expired, hm, decide_eq_false_iff_not]
      omega
    unfold TokenManager.ensure_valid_token
    rw [hfalse]
    exact ⟨rfl, rfl, rfl⟩
  · intro hge
    have htrue : m.is_token_expired t = true := by
      simp only [TokenManager.is_token_expired, hm, decide_eq_true_eq]
      omega
    unfold TokenManager.ensure_valid_token
    rw [htrue]
    rcases refresher with emsg | ⟨oa, orr, oe⟩
    · rfl
    · cases oa <;> cases orr <;> cases oe <;> rfl

/-- Witness for C6 at a concrete manager whose clock has reached the margin. -/
theorem C6_witness :
    (⟨"A1", "R1", 3600, 3600, 30⟩ : TokenManager).refresh_margin = 30 ∧
    ((⟨"A1", "R1", 3600, 3600, 30⟩ : TokenManager).ensure_valid_token
        (.error "boom") 3600 3700).refreshCalls = 1 :=
  ⟨rfl,
   (C6_refresh_gating ⟨"A1", "R1", 3600, 3600, 30⟩ (.error "boom") 3600 3700
      rfl).2 (by decide)⟩

/-- Claim C7: immediately after a successful construction with
`expires_in = e`, `is_token_expired` (at the construction clock value) is
true exactly when `e ≤ 30`, so false for `e > 30` and true for `e ≤ 30`,
including the boundary `e = 30`. -/
theorem C7_expired_after_construction (a r : String) (e now : Int)
    (m : TokenManager)
    (h : TokenManager.init ⟨some a, some r, some e⟩ now = .ok m) :
    m.is_token_expired now = decide (e ≤ 30) := by
  simp only [TokenManager.init] at h
  cases h
  simp only [TokenManager.is_token_expired]
  exact decide_eq_decide.mpr (by omega)

/-- Witness for C7 at `expires_in = 10`, which is due for refresh at once. -/
theorem C7_witness :
    TokenManager.init ⟨some "A1", some "R1", some 10⟩ 0 =
      .ok ⟨"A1", "R1", 10, 10, 30⟩ ∧
    (⟨"A1", "R1", 10, 10, 30⟩ : TokenManager).is_token_expired 0 = true :=
  ⟨by decide,
   (C7_expired_after_construction "A1" "R1" 10 0 ⟨"A1", "R1", 10, 10, 30⟩
      (by decide)).trans (by decide)⟩

/-- Claim C8: `update_tokens` on a well-formed payload succeeds, and an
immediately following `get_access_token` returns exactly the payload's
access token. -/
theorem C8_round_trip (m : TokenManager) (a r : String) (e now : Int) :
    (m.update_tokens ⟨some a, some r, some e⟩ now).1 = .ok () ∧
    (m.update_tokens ⟨some a, some r, some e⟩ now).2.get_access_token = a :=
  ⟨rfl, rfl⟩

/-- Claim C9: for a fixed credential, `is_token_expired` is monotone in the
clock: once it reports true at clock value `t`, it reports true at every
later clock value `t2` as long as the state is not replaced. -/
theorem C9_expiry_monotone (m : TokenManager) (t t2 : Int) (hle : t ≤ t2)
    (h : m.is_token_expired t = true) : m.is_token_expired t2 = true := by
  simp only [TokenManager.is_token_expired, decide_eq_true_eq] at h ⊢
  omega

/-- Witness for C9 at a concrete already-expired manager and a later clock. -/
theorem C9_witness :
    (0 : Int) ≤ 5 ∧
    (⟨"A1", "R1", 10, 10, 30⟩ : TokenManager).is_token_expired 0 = true ∧
    (⟨"A1", "R1", 10, 10, 30⟩ : TokenManager).is_token_expired 5 = true :=
  ⟨by decide, by decide,
   C9_expiry_monotone ⟨"A1", "R1", 10, 10, 30⟩ 0 5 (by decide) (by decide)⟩

/-- Counterexample to C1: with an expired token, a refresher success payload
carrying `access_token` but missing `refresh_token` makes
`ensure_valid_token` fail, yet the held `access_token` has already been
overwritten — the credential is not left unchanged. -/
theorem C1_counterexample :
    ((⟨"A1", "R1", 3600, 100, 30⟩ : TokenManager).ensure_valid_token
        (.ok ⟨some "A2", none, none⟩) 100 101).result =
      .error (.exn ("Failed to refresh token: " ++
        pyKeyErrorStr "refresh_token")) ∧
    ((⟨"A1", "R1", 3600, 100, 30⟩ : TokenManager).ensure_valid_token
        (.ok ⟨some "A2", none, none⟩) 100 101).state.access_token = "A2" ∧
    "A2" ≠ "A1" :=
  ⟨by decide, by decide, by decide⟩

/-- Claim C1 (amended): when the refresher call itself fails, or its payload
is missing `access_token`, the held credential is left exactly as it was; but
when a refresher success payload is missing a later key, the fields assigned
before that key are already mutated (`access_token` alone when
`refresh_token` is missing; `access_token` and `refresh_token` when
`expires_in` is missing), with the expiry fields unchanged. -/
theorem C1_failure_state (m : TokenManager) (t u : Int) :
    (∀ msg, (m.ensure_valid_token (.error msg) t u).state = m) ∧
    (∀ dr de, (m.ensure_valid_token (.ok ⟨none, dr, de⟩) t u).state = m) ∧
    (∀ a de, m.is_token_expired t = true →
      (m.ensure_valid_token (.ok ⟨some a, none, de⟩) t u).state =
        { m with access_token := a }) ∧
    (∀ a r, m.is_token_expired t = true →
      (m.ensure_valid_token (.ok ⟨some a, some r, none⟩) t u).state =
        { m with access_token := a, refresh_token := r }) := by
  refine ⟨?_, ?_, ?_, ?_⟩
  · intro msg
    unfold TokenManager.ensure_valid_token
    cases hc : m.is_token_expired t <;> rfl
  · intro dr de
    unfold TokenManager.ensure_valid_token
    cases hc : m.is_token_expired t <;> rfl
  · intro a de h
    unfold TokenManager.ensure_valid_token
    rw [h]
  · intro a r h
    unfold TokenManager.ensure_valid_token
    rw [h]

/-- Witness for C1 (amended) at an expired manager and a payload missing
`expires_in`: the first two fields are mutated, the expiry fields are not. -/
theorem C1_witness :
    (⟨"A1", "R1", 3600, 100, 30⟩ : TokenManager).is_token_expired 100 = true ∧
    ((⟨"A1", "R1", 3600, 100, 30⟩ : TokenManager).ensure_valid_token
        (.ok ⟨some "A2", some "R2", none⟩) 100 101).state =
      ⟨"A2", "R2", 3600, 100, 30⟩ :=
  ⟨by decide,
   (C1_failure_state ⟨"A1", "R1", 3600, 100, 30⟩ 100 101).2.2.2 "A2" "R2"
     (by decide)⟩

/-- Claim C3: a refresher failure whose message has one of the three terminal
markers as a case-sensitive substring surfaces as the SESSION_EXPIRED error,
any other refresher failure surfaces as the refresh-failed error carrying the
original message, and no refresher failure ever produces a success value. -/
theorem C3_failure_classification (m : TokenManager) (t u : Int)
    (msg : String) (h : m.is_token_expired t = true) :
    (hasTerminalMarker msg = true →
      (m.ensure_valid_token (.error msg) t u).result =
        .error (.exn "SESSION_EXPIRED")) ∧
    (hasTerminalMarker msg = false →
      (m.ensure_valid_token (.error msg) t u).result =
        .error (.exn ("Failed to refresh token: " ++ msg))) ∧
    (∀ s, (m.ensure_valid_token (.error msg) t u).result ≠ .ok s) := by
  unfold TokenManager.ensure_valid_token
  rw [h]
  refine ⟨?_, ?_, ?_⟩
  · intro hmk
    simp [classify, hmk]
  · intro hmk
    simp [classify, hmk]
  · intro s
    cases hmk : hasTerminalMarker msg <;> simp [classify, hmk]

/-- Witness for C3 at an expired manager and the non-terminal failure message
from the spec's scenario. -/
theorem C3_witness :
    (⟨"A1", "R1", 3600, 100, 30⟩ : TokenManager).is_token_expired 100 = true ∧
    hasTerminalMarker "network timeout" = false ∧
    ((⟨"A1", "R1", 3600, 100, 30⟩ : TokenManager).ensure_valid_token
        (.error "network timeout") 100 101).result =
      .error (.exn ("Failed to refresh token: " ++ "network timeout")) :=
  ⟨by decide, by decide,
   (C3_failure_classification ⟨"A1", "R1", 3600, 100, 30⟩ 100 101
      "network timeout" (by decide)).2.1 (by decide)⟩

/-- Counterexample to C4: `update_tokens` on a payload missing `expires_in`
fails, yet `access_token` has already been overwritten — internal state is
mutated on a validation failure. -/
theorem C4_counterexample :
    (TokenManager.update_tokens ⟨"A1", "R1", 3600, 4600, 30⟩
        ⟨some "X", some "Y", none⟩ 5000).1 =
      .error (.keyError "expires_in") ∧
    (TokenManager.update_tokens ⟨"A1", "R1", 3600, 4600, 30⟩
        ⟨some "X", some "Y", none⟩ 5000).2.access_token = "X" ∧
    "X" ≠ "A1" :=
  ⟨by decide, by decide, by decide⟩

/-- Claim C4 (amended): `update_tokens` succeeds on a payload with all three
keys present, performing the full replace-and-recompute of all four
credential fields; on a payload with a missing key it fails with that key's
`KeyError`, leaving in place the assignments made before the missing key
(none when `access_token` is missing, `access_token` when `refresh_token` is
missing, `access_token` and `refresh_token` when `expires_in` is missing). -/
theorem C4_update_tokens_cases (m : TokenManager) (now : Int) :
    (∀ a r e, m.update_tokens ⟨some a, some r, some e⟩ now =
      (.ok (), { access_token := a, refresh_token := r, expires_in := e,
                 token_expiry := now + e,
                 refresh_margin := m.refresh_margin })) ∧
    (∀ dr de, m.update_tokens ⟨none, dr, de⟩ now =
      (.error (.keyError "access_token"), m)) ∧
    (∀ a de, m.update_tokens ⟨some a, none, de⟩ now =
      (.error (.keyError "refresh_token"), { m with access_token := a })) ∧
    (∀ a r, m.update_tokens ⟨some a, some r, none⟩ now =
      (.error (.keyError "expires_in"),
       { m with access_token := a, refresh_token := r })) :=
  ⟨fun _ _ _ => rfl, fun _ _ => rfl, fun _ _ => rfl, fun _ _ => rfl⟩

/-- Counterexample to C5: construction with a negative `expires_in` succeeds;
the code performs no non-negativity validation. -/
theorem C5_counterexample :
    TokenManager.init ⟨some "A1", some "R1", some (-5)⟩ 1000 =
      .ok ⟨"A1", "R1", -5, 995, 30⟩ := by
  decide

/-- Claim C5 (amended): construction succeeds exactly when the three keys
`access_token`, `refresh_token` and `expires_in` are all present; the value
of `expires_in` is not validated, so a negative value is accepted. -/
theorem C5_construction_requirements (d : AuthData) (now : Int) :
    (∃ m, TokenManager.init d now = .ok m) ↔
      (d.access_token ≠ none ∧ d.refresh_token ≠ none ∧
       d.expires_in ≠ none) := by
  rcases d with ⟨oa, orr, oe⟩
  cases oa <;> cases orr <;> cases oe <;> simp [TokenManager.init]

/-- Claim C10: a terminal refresher failure surfaces as an error whose
message is exactly the fixed text SESSION_EXPIRED, independent of the
original failure message. -/
theorem C10_session_expired_text (m : TokenManager) (t u : Int)
    (msg : String) (h : m.is_token_expired t = true)
    (hmk : hasTerminalMarker msg = true) :
    (m.ensure_valid_token (.error msg) t u).result =
      .error (.exn "SESSION_EXPIRED") := by
  unfold TokenManager.ensure_valid_token
  rw [h]
  simp [classify, hmk]

/-- Witness for C10 at an expired manager and the terminal failure message
from the spec's scenario. -/
theorem C10_witness :
    (⟨"A1", "R1", 3600, 100, 30⟩ : TokenManager).is_token_expired 100 = true ∧
    hasTerminalMarker "invalid_grant: token revoked" = true ∧
    ((⟨"A1", "R1", 3600, 100, 30⟩ : TokenManager).ensure_valid_token
        (.error "invalid_grant: token revoked") 100 101).result =
      .error (.exn "SESSION_EXPIRED") :=
  ⟨by decide, by decide,
   C10_session_expired_text ⟨"A1", "R1", 3600, 100, 30⟩ 100 101
     "invalid_grant: token revoked" (by decide) (by decide)⟩
